import Mathlib

/-!
Verification of the Slack reader
(`llama_index/readers/slack/base.py`) against its specification.

The embedding models the reader's pure control logic. The external
collaborators (the Slack web client, the regex engine of Python's `re`
module, wall-clock time and `time.sleep`) are represented explicitly:

* a fetch loop consumes a finite *trace* of transport responses, one
  response per issued request, and produces the list of observable
  events (each request with the keyword arguments it carried, and each
  sleep with its duration), the accumulated message texts, and a `Bool`
  that is `true` iff the loop exited within the given trace (`false`
  means the loop is still iterating and would issue further requests);
* timestamps (Python floats) are modelled as `Int`, and Python's
  `str(x)` as `toString x`;
* `re.compile` success and the prefix-anchored `re.match` are oracles
  (`isRegex`, `reMatch`) supplied by the environment, since the regex
  engine itself is a library external to the repository;
* credential/token resolution and the `api_test` connectivity check of
  the constructor are bootstrap concerns external to the modelled
  window-validation logic.
-/

/-- A transport response to one page request, as the fetch loops
inspect it: a successful page (`messages` carries the per-message
payload the loop extracts — the `text` field for replies pages, the
`ts` field for history pages), a `SlackApiError` whose error field is
`"ratelimited"` carrying the `retry-after` header, or any other
`SlackApiError`. -/
inductive ApiResp where
  | ok (messages : List String) (hasMore : Bool) (nextCursor : String)
  | ratelimited (retryAfter : Nat)
  | apiError (err : String)
deriving DecidableEq, Repr

/-- The keyword arguments a page request carries. `ts` is present only
for `conversations_replies` requests; `latest`/`oldest` are the window
bounds, absent when the corresponding kwarg is not sent. -/
structure RequestKwargs where
  channel : String
  ts : Option String
  cursor : Option String
  latest : Option String
  oldest : Option String
deriving DecidableEq, Repr

/-- An observable event of a fetch loop: a page request with the kwargs
it carried, or a `time.sleep` of the given number of seconds. -/
inductive Event where
  | request (kwargs : RequestKwargs)
  | sleep (seconds : Nat)
deriving DecidableEq, Repr

/-- Kwargs built by `_read_message` (base.py lines 104-121): when
`earliest_date_timestamp` is `None` only channel/ts/cursor are sent;
otherwise `latest` and `oldest` are both sent as stringified
timestamps. -/
def mkReplyKwargs (channel ts : String) (earliest : Option Int) (latest : Int)
    (cursor : Option String) : RequestKwargs :=
  match earliest with
  | none => { channel := channel, ts := some ts, cursor := cursor, latest := none, oldest := none }
  | some e =>
      { channel := channel, ts := some ts, cursor := cursor,
        latest := some (toString latest), oldest := some (toString e) }

/-- Kwargs built by `_read_channel` (base.py lines 155-163): `latest`
is always sent; `oldest` is sent iff `earliest_date_timestamp` is
set. -/
def mkHistKwargs (channel : String) (earliest : Option Int) (latest : Int)
    (cursor : Option String) : RequestKwargs :=
  { channel := channel, ts := none, cursor := cursor,
    latest := some (toString latest),
    oldest := match earliest with | none => none | some e => some (toString e) }

/-- The `while True` loop of `_read_message` (base.py lines 100-138),
one trace element per iteration. On a page: extend the accumulator,
stop when `has_more` is false, else adopt `next_cursor`. On a
rate-limit error: sleep for `retry-after` seconds and loop with the
same cursor. On any other `SlackApiError`: `break` (returning the
accumulator). Returns (events, accumulated texts, loop exited). -/
def readMessageLoop (channel ts : String) (earliest : Option Int) (latest : Int)
    (cursor : Option String) (acc : List String) :
    List ApiResp → List Event × List String × Bool
  | [] => ([], acc, false)
  | resp :: rest =>
    let kw := mkReplyKwargs channel ts earliest latest cursor
    match resp with
    | .ok msgs hasMore nextCursor =>
      let acc2 := acc ++ msgs
      if hasMore then
        let r := readMessageLoop channel ts earliest latest (some nextCursor) acc2 rest
        (Event.request kw :: r.1, r.2)
      else ([Event.request kw], acc2, true)
    | .ratelimited d =>
      let r := readMessageLoop channel ts earliest latest cursor acc rest
      (Event.request kw :: Event.sleep d :: r.1, r.2)
    | .apiError _ => ([Event.request kw], acc, true)

/-- `"\n\n".join(xs)`. -/
def joinBlank (xs : List String) : String :=
  String.intercalate "\n\n" xs

/-- `_read_message` (base.py lines 93-140): run the loop from an empty
accumulator and no cursor, return the blank-line join of the collected
reply texts. -/
def read_message (channel ts : String) (earliest : Option Int) (latest : Int)
    (trace : List ApiResp) : List Event × String × Bool :=
  let r := readMessageLoop channel ts earliest latest none [] trace
  (r.1, joinBlank r.2.1, r.2.2)

/-- The `while True` loop of `_read_channel` (base.py lines 149-189).
`thread` abstracts the synchronous `_read_message` expansion of each
top-level message's `ts` into its thread text (that call never raises:
it swallows every `SlackApiError`). Note the faithful difference from
`readMessageLoop`: the non-rate-limit `SlackApiError` branch (lines
188-189) only logs — there is no `break` — so the loop re-enters with
the cursor unchanged. -/
def readChannelLoop (channel : String) (thread : String → String)
    (earliest : Option Int) (latest : Int)
    (cursor : Option String) (acc : List String) :
    List ApiResp → List Event × List String × Bool
  | [] => ([], acc, false)
  | resp :: rest =>
    let kw := mkHistKwargs channel earliest latest cursor
    match resp with
    | .ok msgs hasMore nextCursor =>
      let acc2 := acc ++ msgs.map thread
      if hasMore then
        let r := readChannelLoop channel thread earliest latest (some nextCursor) acc2 rest
        (Event.request kw :: r.1, r.2)
      else ([Event.request kw], acc2, true)
    | .ratelimited d =>
      let r := readChannelLoop channel thread earliest latest cursor acc rest
      (Event.request kw :: Event.sleep d :: r.1, r.2)
    | .apiError _ =>
      let r := readChannelLoop channel thread earliest latest cursor acc rest
      (Event.request kw :: r.1, r.2)

/-- `_read_channel` (base.py lines 142-195): run the loop, then return
`"\n\n".join(result_messages)` when `reverse_chronological` is true,
and the join of the reversed list (`[::-1]`) otherwise. -/
def read_channel (channel : String) (thread : String → String)
    (earliest : Option Int) (latest : Int) (reverseChronological : Bool)
    (trace : List ApiResp) : List Event × String × Bool :=
  let r := readChannelLoop channel thread earliest latest none [] trace
  (r.1, if reverseChronological then joinBlank r.2.1 else joinBlank r.2.1.reverse, r.2.2)

/-- A trace of uniformly successful pages: `has_more` is true on every
page but the last, false on the last. -/
def okTrace : List (List String) → List ApiResp
  | [] => []
  | [p] => [ApiResp.ok p false ""]
  | p :: q :: rest => ApiResp.ok p true "cur" :: okTrace (q :: rest)

/-- Number of request events in an event log. -/
def countRequests (evs : List Event) : Nat :=
  (evs.filter fun ev => match ev with | .request _ => true | .sleep _ => false).length

/-- The bounds a `conversations_replies` request carries, per the
source: with no earliest bound neither kwarg is sent; with an earliest
bound both are sent. -/
def replyBoundsOk (e : Option Int) (l : Int) (ev : Event) : Bool :=
  match ev with
  | .sleep _ => true
  | .request kw =>
    match e with
    | none => kw.latest == none && kw.oldest == none
    | some x => kw.latest == some (toString l) && kw.oldest == some (toString x)

/-- The bounds a `conversations_history` request carries, per the
source: `latest` is always sent; `oldest` is sent iff an earliest
bound is set. -/
def histBoundsOk (e : Option Int) (l : Int) (ev : Event) : Bool :=
  match ev with
  | .sleep _ => true
  | .request kw =>
    kw.latest == some (toString l) &&
      (match e with
       | none => kw.oldest == none
       | some x => kw.oldest == some (toString x))

/-- A Slack channel as returned by `conversations_list`: identity is
`id`, `name` is used only for pattern matching. -/
structure Channel where
  id : String
  name : String
deriving DecidableEq, Repr

/-- An output document: `id_` and the `channel` metadata value are both
the channel id, `text` is the assembled channel text. -/
structure Document where
  id_ : String
  text : String
  channel : String
deriving DecidableEq, Repr

/-- The environment the load orchestration runs against:
`listChannelsResult` is the outcome of the `conversations_list` call
(`error` models a `SlackApiError` raised by it); `isRegex` is the
oracle for `re.compile` success (`_is_regex`, base.py lines 240-246);
`reMatch` is the oracle for Python's prefix-anchored `re.match`;
`channelText` abstracts `_read_channel` (channel id and
`reverse_chronological` flag to assembled text), which is modelled in
page-level detail by `read_channel` above. -/
structure SlackEnv where
  listChannelsResult : Except String (List Channel)
  isRegex : String → Bool
  reMatch : String → String → Bool
  channelText : String → Bool → String

/-- `_list_channels` (base.py lines 248-259): return the channel list,
or on a `SlackApiError` log and return the empty list. -/
def list_channels (env : SlackEnv) : List Channel :=
  match env.listChannelsResult with
  | Except.ok cs => cs
  | Except.error _ => []

/-- `_filter_channels` (base.py lines 261-278): split the patterns into
those that compile (`regex_patterns`) and those that do not
(`exact_names`); keep the channels whose name is in `exact_names`, then
for each channel and each compiling pattern append the channel when
`re.match` succeeds. Duplicates are kept, exactly as in the source. -/
def filter_channels (env : SlackEnv) (channels : List Channel)
    (patterns : List String) : List Channel :=
  let regexPatterns := patterns.filter fun p => env.isRegex p
  let exactNames := patterns.filter fun p => !env.isRegex p
  let filtered := channels.filter fun c => decide (c.name ∈ exactNames)
  filtered ++ channels.flatMap fun c =>
    (regexPatterns.filter fun p => env.reMatch p c.name).map fun _ => c

/-- `_get_channel_ids` (base.py lines 280-288). -/
def get_channel_ids (env : SlackEnv) (patterns : List String) : List String :=
  (filter_channels env (list_channels env) patterns).map Channel.id

/-- `load_data` (base.py lines 197-238). Python's falsiness of `None`
and of the empty list is modelled by `List.isEmpty`. `list(set(...))`
is modelled by `List.dedup` (Python's set iteration order is
unspecified; the claims depend only on membership and on the absence
of duplicates). One document per resulting channel id, with the id as
both `id_` and the `channel` metadata. -/
def load_data (env : SlackEnv) (channel_ids channel_patterns : List String)
    (reverseChronological : Bool) : Except String (List Document) :=
  if channel_ids.isEmpty && channel_patterns.isEmpty then
    Except.error "Must specify either channel_ids or channel_patterns."
  else
    let cids :=
      if !channel_patterns.isEmpty then
        let pids := get_channel_ids env channel_patterns
        if !channel_ids.isEmpty then (channel_ids ++ pids).dedup
        else pids
      else channel_ids
    Except.ok (cids.map fun cid =>
      { id_ := cid, text := env.channelText cid reverseChronological, channel := cid })

/-- The constructor arguments relevant to window resolution
(base.py lines 44-52). A `datetime` is represented by the `Int` value
its `.timestamp()` returns. -/
structure InitArgs where
  earliest_date : Option Int
  latest_date : Option Int
  earliest_date_timestamp : Option Int
  latest_date_timestamp : Option Int
deriving DecidableEq, Repr

/-- The window state stored on the constructed reader. -/
structure ReaderWindow where
  earliest_date_timestamp : Option Int
  latest_date_timestamp : Option Int
deriving DecidableEq, Repr

/-- The window-validation and window-resolution logic of
`SlackReader.__init__` (base.py lines 67-78), with `now` the value of
`datetime.now().timestamp()` at construction. Line 74 is
`None or earliest_date_timestamp`, which evaluates to the raw argument;
line 78 is `datetime.now().timestamp() or latest_date_timestamp`,
whose left operand is kept whenever it is truthy (non-zero). Token
resolution and the `api_test` connectivity check are external
bootstrap, outside this model. -/
def slackReaderInit (now : Int) (a : InitArgs) : Except String ReaderWindow :=
  if a.latest_date.isSome && a.earliest_date.isNone then
    Except.error "Must specify earliest_date if latest_date is specified."
  else
    let e := match a.earliest_date with
      | some d => some d
      | none => a.earliest_date_timestamp
    let l := match a.latest_date with
      | some d => some d
      | none => if now ≠ 0 then some now else a.latest_date_timestamp
    Except.ok { earliest_date_timestamp := e, latest_date_timestamp := l }

/-- `true` iff construction raises (window rejected). -/
def initFails (now : Int) (a : InitArgs) : Bool :=
  match slackReaderInit now a with
  | Except.error _ => true
  | Except.ok _ => false

/-! ## Helper lemmas -/

lemma joinBlank_singleton (a : String) : joinBlank [a] = a := rfl

lemma readChannelLoop_replicate_error (ch : String) (th : String → String)
    (e : Option Int) (l : Int) (m : String) :
    ∀ (n : Nat) (cur : Option String) (acc : List String),
      readChannelLoop ch th e l cur acc (List.replicate n (ApiResp.apiError m)) =
        (List.replicate n (Event.request (mkHistKwargs ch e l cur)), acc, false) := by
  intro n
  induction n with
  | zero => intro cur acc; simp [readChannelLoop]
  | succ k ih =>
      intro cur acc
      simp [List.replicate_succ, readChannelLoop, ih]

lemma countRequests_cons_request (kw : RequestKwargs) (evs : List Event) :
    countRequests (Event.request kw :: evs) = countRequests evs + 1 := by
  simp [countRequests]

lemma readChannelLoop_okTrace (ch : String) (th : String → String)
    (e : Option Int) (l : Int) :
    ∀ (ps : List (List String)) (p : List String) (cur : Option String)
      (acc : List String),
      (readChannelLoop ch th e l cur acc (okTrace (p :: ps))).2 =
        (acc ++ ((p :: ps).flatten).map th, true) ∧
      (readChannelLoop ch th e l cur acc (okTrace (p :: ps))).1.length =
        ps.length + 1 ∧
      countRequests (readChannelLoop ch th e l cur acc (okTrace (p :: ps))).1 =
        ps.length + 1 := by
  intro ps
  induction ps with
  | nil =>
      intro p cur acc
      simp [okTrace, readChannelLoop, countRequests]
  | cons q rest ih =>
      intro p cur acc
      have h := ih q (some "cur") (acc ++ p.map th)
      simp only [okTrace, readChannelLoop, if_true]
      refine ⟨?_, ?_, ?_⟩
      · rw [h.1]; simp
      · simp [h.2.1]
      · rw [countRequests_cons_request, h.2.2]; simp

lemma replyBoundsOk_mk (ch ts : String) (e : Option Int) (l : Int)
    (cur : Option String) :
    replyBoundsOk e l (Event.request (mkReplyKwargs ch ts e l cur)) = true := by
  cases e <;> simp [replyBoundsOk, mkReplyKwargs]

lemma histBoundsOk_mk (ch : String) (e : Option Int) (l : Int)
    (cur : Option String) :
    histBoundsOk e l (Event.request (mkHistKwargs ch e l cur)) = true := by
  cases e <;> simp [histBoundsOk, mkHistKwargs]

lemma replyBoundsOk_sleep (e : Option Int) (l : Int) (d : Nat) :
    replyBoundsOk e l (Event.sleep d) = true := rfl

lemma histBoundsOk_sleep (e : Option Int) (l : Int) (d : Nat) :
    histBoundsOk e l (Event.sleep d) = true := rfl

lemma readMessageLoop_boundsOk (ch ts : String) (e : Option Int) (l : Int) :
    ∀ (tr : List ApiResp) (cur : Option String) (acc : List String),
      (readMessageLoop ch ts e l cur acc tr).1.all (replyBoundsOk e l) = true := by
  intro tr
  induction tr with
  | nil => intro cur acc; simp [readMessageLoop]
  | cons resp rest ih =>
      intro cur acc
      cases resp with
      | ok msgs hasMore nextCursor =>
          by_cases h : hasMore = true
          · simp [readMessageLoop, h, replyBoundsOk_mk, ih]
          · simp [readMessageLoop, h, replyBoundsOk_mk]
      | ratelimited d =>
          simp [readMessageLoop, replyBoundsOk_mk, replyBoundsOk_sleep, ih]
      | apiError m =>
          simp [readMessageLoop, replyBoundsOk_mk]

lemma readChannelLoop_boundsOk (ch : String) (th : String → String)
    (e : Option Int) (l : Int) :
    ∀ (tr : List ApiResp) (cur : Option String) (acc : List String),
      (readChannelLoop ch th e l cur acc tr).1.all (histBoundsOk e l) = true := by
  intro tr
  induction tr with
  | nil => intro cur acc; simp [readChannelLoop]
  | cons resp rest ih =>
      intro cur acc
      cases resp with
      | ok msgs hasMore nextCursor =>
          by_cases h : hasMore = true
          · simp [readChannelLoop, h, histBoundsOk_mk, ih]
          · simp [readChannelLoop, h, histBoundsOk_mk]
      | ratelimited d =>
          simp [readChannelLoop, histBoundsOk_mk, histBoundsOk_sleep, ih]
      | apiError m =>
          simp [readChannelLoop, histBoundsOk_mk, ih]

/-! ## Claim theorems -/

/-- C1: on a non-rate-limit transport error, the thread-replies loop
does terminate immediately with the accumulated texts (the `break` at
base.py line 138), and `read_message` returns the partial join; but the
channel-history loop does NOT terminate: its error branch (base.py
lines 188-189) lacks the `break`, so after any number `n` of
consecutive non-rate-limit errors it has issued `n` identical requests
(cursor unchanged), accumulated nothing new, and is still iterating
(`false`), never returning the partial result. -/
theorem c1_transport_error_termination
    (ch ts m : String) (th : String → String) (e : Option Int) (l : Int)
    (cur : Option String) (acc : List String) (tr : List ApiResp) (n : Nat) :
    readMessageLoop ch ts e l cur acc (ApiResp.apiError m :: tr) =
      ([Event.request (mkReplyKwargs ch ts e l cur)], acc, true) ∧
    read_message ch ts e l
        [ApiResp.ok ["a"] true "c1", ApiResp.apiError m] =
      ([Event.request (mkReplyKwargs ch ts e l none),
        Event.request (mkReplyKwargs ch ts e l (some "c1"))], "a", true) ∧
    readChannelLoop ch th e l cur acc (List.replicate n (ApiResp.apiError m)) =
      (List.replicate n (Event.request (mkHistKwargs ch e l cur)), acc, false) := by
  refine ⟨by simp [readMessageLoop], ?_, readChannelLoop_replicate_error ch th e l m n cur acc⟩
  simp [read_message, readMessageLoop, joinBlank_singleton]

/-- C4 counterexample: a channel-history page request issued with no
window specified at all (earliest absent) still carries the latest
bound — refuting the claim that neither bound is sent on the request in
that case. Concretely, with `latest_date_timestamp = 1000` and no
earliest bound, the single history request of a one-page fetch carries
`latest = "1000"`, which is not absent. -/
theorem c4_counterexample :
    (readChannelLoop "C" (fun t => t) none 1000 none []
        [ApiResp.ok [] false ""]).1 =
      [Event.request { channel := "C", ts := none, cursor := none,
                       latest := some "1000", oldest := none }] ∧
    (some "1000" : Option String).isSome = true := by
  exact ⟨rfl, rfl⟩

/-- C4 amended: every request issued by either fetch loop obeys the
source's bound rule. When the earliest bound is set, both loops send it
as `oldest` and send the latest bound as `latest`. When the earliest
bound is absent, the thread-replies request carries neither bound, but
the channel-history request still carries the latest bound (only the
lower bound is omitted). -/
theorem c4_window_bounds_amended
    (ch ts : String) (th : String → String) (e : Option Int) (l : Int)
    (cur : Option String) (acc : List String) (tr : List ApiResp) :
    (readMessageLoop ch ts e l cur acc tr).1.all (replyBoundsOk e l) = true ∧
    (readChannelLoop ch th e l cur acc tr).1.all (histBoundsOk e l) = true :=
  ⟨readMessageLoop_boundsOk ch ts e l tr cur acc,
   readChannelLoop_boundsOk ch th e l tr cur acc⟩

/-- C3: on a fully successful run, the channel fetch collects the
per-message thread texts in delivery order (pages in order, messages
within each page in order); when `reverse_chronological` is true the
returned channel text is their blank-line join in that order, and when
it is false it is the join of the reversed list. In particular native
order `[m3, m2, m1]` (with the thread expansion of a message being its
own text) yields `"m3\n\nm2\n\nm1"` for true and `"m1\n\nm2\n\nm3"`
for false. -/
theorem c3_channel_ordering :
    (∀ (ch : String) (th : String → String) (e : Option Int) (l : Int)
       (p : List String) (ps : List (List String)),
       (read_channel ch th e l true (okTrace (p :: ps))).2.1 =
         joinBlank (((p :: ps).flatten).map th) ∧
       (read_channel ch th e l false (okTrace (p :: ps))).2.1 =
         joinBlank ((((p :: ps).flatten).map th).reverse)) ∧
    (read_channel "C" (fun t => t) none 0 true
        [ApiResp.ok ["m3", "m2", "m1"] false ""]).2.1 = "m3\n\nm2\n\nm1" ∧
    (read_channel "C" (fun t => t) none 0 false
        [ApiResp.ok ["m3", "m2", "m1"] false ""]).2.1 = "m1\n\nm2\n\nm3" := by
  refine ⟨?_, rfl, rfl⟩
  intro ch th e l p ps
  have h := (readChannelLoop_okTrace ch th e l ps p none []).1
  constructor
  · simp [read_channel, h]
  · simp [read_channel, h]

/-- C9: on a fully successful run of `N = ps.length + 1` pages
(`has_more` true on all but the last page), the channel fetch issues
exactly `N` history requests — the event log has `N` request events and
nothing else — and the loop exits; with a single page whose `has_more`
is already false, exactly one request is issued (zero pages beyond the
first). Requests issued by the nested thread expansions are not part of
this log. -/
theorem c9_request_count
    (ch : String) (th : String → String) (e : Option Int) (l : Int)
    (p : List String) (ps : List (List String)) :
    countRequests (read_channel ch th e l true (okTrace (p :: ps))).1 =
      ps.length + 1 ∧
    (read_channel ch th e l true (okTrace (p :: ps))).1.length = ps.length + 1 ∧
    (read_channel ch th e l true (okTrace (p :: ps))).2.2 = true ∧
    (read_channel ch th e l true (okTrace [p])).1.length = 1 := by
  have h := readChannelLoop_okTrace ch th e l ps p none []
  have h1 := readChannelLoop_okTrace ch th e l [] p none []
  exact ⟨by simpa [read_channel] using h.2.2,
         by simpa [read_channel] using h.2.1,
         by simp [read_channel, h.1],
         by simpa [read_channel] using h1.2.1⟩

/-- C5 counterexample: a load call given only patterns, against a
workspace with the single channel id `"A"` named `"alpha"` and two
patterns that both compile and both prefix-match that name, returns two
documents for the one distinct channel id `"A"` — refuting "the result
contains exactly one document per distinct channel id" (the resolver's
duplicates are only removed when explicit ids are also present). -/
theorem c5_counterexample :
    load_data { listChannelsResult := Except.ok [{ id := "A", name := "alpha" }],
                isRegex := fun _ => true, reMatch := fun _ _ => true,
                channelText := fun _ _ => "" } [] ["al", "alp"] true =
      Except.ok [{ id_ := "A", text := "", channel := "A" },
                 { id_ := "A", text := "", channel := "A" }] ∧
    ([{ id_ := "A", text := "", channel := "A" },
      { id_ := "A", text := "", channel := "A" }].map Document.id_).count "A" = 2 := by
  exact ⟨rfl, rfl⟩

/-- C5 amended: when both `channel_ids` and `channel_patterns` are
supplied (both nonempty), the ids resolved from the patterns are
unioned with the explicit ids with duplicates removed, and the result
has exactly one document per distinct id of that union, with the id as
both document identity and channel metadata; in particular a channel
supplied explicitly and also matched by a pattern yields exactly one
document. (When only one of the two arguments is supplied, no
deduplication is performed — see the counterexample.) -/
theorem c5_load_dedup_amended
    (env : SlackEnv) (i p : String) (is ps : List String) (rc : Bool) :
    (load_data env (i :: is) (p :: ps) rc =
      Except.ok ((((i :: is) ++ get_channel_ids env (p :: ps)).dedup).map
        (fun cid => { id_ := cid, text := env.channelText cid rc, channel := cid })) ∧
     ((((i :: is) ++ get_channel_ids env (p :: ps)).dedup).map
        (fun cid => ({ id_ := cid, text := env.channelText cid rc, channel := cid } :
          Document))).map Document.id_ =
       ((i :: is) ++ get_channel_ids env (p :: ps)).dedup ∧
     (((i :: is) ++ get_channel_ids env (p :: ps)).dedup).Nodup ∧
     ((((i :: is) ++ get_channel_ids env (p :: ps)).dedup).map
        (fun cid => ({ id_ := cid, text := env.channelText cid rc, channel := cid } :
          Document))).all (fun d => d.id_ == d.channel) = true) ∧
    load_data { listChannelsResult := Except.ok [{ id := "A", name := "A" }],
                isRegex := fun _ => true, reMatch := fun _ _ => true,
                channelText := fun _ _ => "t" } ["A"] ["Apat"] true =
      Except.ok [{ id_ := "A", text := "t", channel := "A" }] := by
  refine ⟨⟨?_, ?_, List.nodup_dedup _, ?_⟩, rfl⟩
  · simp [load_data]
  · simp only [List.map_map]
    exact List.map_id' _
  · simp only [List.all_eq_true]
    intro d hd
    simp only [List.mem_map] at hd
    obtain ⟨cid, _, rfl⟩ := hd
    exact beq_self_eq_true _

/-- C6 counterexample: a construction that supplies the latest bound
only in its raw numeric form (`latest_date_timestamp = 5`) with no
earliest bound does not fail — construction succeeds (and the supplied
bound is even discarded in favour of the construction time 1000) —
refuting the claim that every construction with a latest bound and no
earliest bound fails. -/
theorem c6_counterexample :
    slackReaderInit 1000
        { earliest_date := none, latest_date := none,
          earliest_date_timestamp := none, latest_date_timestamp := some 5 } =
      Except.ok { earliest_date_timestamp := none,
                  latest_date_timestamp := some 1000 } ∧
    initFails 1000
        { earliest_date := none, latest_date := none,
          earliest_date_timestamp := none, latest_date_timestamp := some 5 } =
      false := by
  exact ⟨rfl, rfl⟩

/-- C6 amended: the window is rejected at construction exactly when the
datetime-form `latest_date` is supplied while the datetime-form
`earliest_date` is absent; the raw timestamp arguments play no part in
the check, so a latest bound supplied only as `latest_date_timestamp`
does not cause a failure, and an earliest bound supplied only as
`earliest_date_timestamp` does not prevent one. -/
theorem c6_window_rejection_amended (now : Int) (a : InitArgs) :
    initFails now a = (a.latest_date.isSome && a.earliest_date.isNone) := by
  by_cases h : (a.latest_date.isSome && a.earliest_date.isNone) = true
  · simp [initFails, slackReaderInit, h]
  · simp only [Bool.not_eq_true] at h
    simp [initFails, slackReaderInit, h]

/-- C7 (divergence witness): with `latest_date` absent and the raw
`latest_date_timestamp = 123` supplied, construction at time 1000
stores 1000 — the construction time — as the upper bound, not 123: line
78 of base.py computes `datetime.now().timestamp() or
latest_date_timestamp`, whose truthy left operand short-circuits, so
the raw argument is discarded. The `latest_date` tier itself works (the
third conjunct). -/
theorem c7_raw_latest_timestamp_ignored :
    slackReaderInit 1000
        { earliest_date := none, latest_date := none,
          earliest_date_timestamp := none, latest_date_timestamp := some 123 } =
      Except.ok { earliest_date_timestamp := none,
                  latest_date_timestamp := some 1000 } ∧
    ((1000 : Int) == (123 : Int)) = false ∧
    slackReaderInit 1000
        { earliest_date := some 50, latest_date := some 77,
          earliest_date_timestamp := none, latest_date_timestamp := none } =
      Except.ok { earliest_date_timestamp := some 50,
                  latest_date_timestamp := some 77 } := by
  exact ⟨rfl, by decide, rfl⟩

/-- C8: a listed channel is selected by the filter iff at least one
supplied pattern matches it, where a pattern that compiles (`isRegex`,
the `re.compile`-success oracle) matches via the prefix-anchored
`re.match` oracle against the channel name, and a pattern that fails to
compile matches iff it literally equals the channel name. -/
theorem c8_pattern_classification (env : SlackEnv) (channels : List Channel)
    (patterns : List String) (c : Channel) :
    c ∈ filter_channels env channels patterns ↔
      c ∈ channels ∧
        ((∃ p ∈ patterns, env.isRegex p = false ∧ c.name = p) ∨
         (∃ p ∈ patterns, env.isRegex p = true ∧ env.reMatch p c.name = true)) := by
  constructor
  · intro hc
    rcases List.mem_append.1 hc with h | h
    · rcases List.mem_filter.1 h with ⟨hcc, hname⟩
      have hmem : c.name ∈ patterns.filter (fun p => !env.isRegex p) :=
        of_decide_eq_true hname
      rcases List.mem_filter.1 hmem with ⟨hp, hr⟩
      exact ⟨hcc, Or.inl ⟨c.name, hp, by simpa using hr, rfl⟩⟩
    · rcases List.mem_flatMap.1 h with ⟨a, ha, hm⟩
      rcases List.mem_map.1 hm with ⟨p, hp, rfl⟩
      rcases List.mem_filter.1 hp with ⟨hpp, hmm⟩
      rcases List.mem_filter.1 hpp with ⟨hp2, hr2⟩
      exact ⟨ha, Or.inr ⟨p, hp2, hr2, hmm⟩⟩
  · rintro ⟨hc, ⟨p, hp, hnr, heq⟩ | ⟨p, hp, hr, hm⟩⟩
    · refine List.mem_append.2 (Or.inl (List.mem_filter.2 ⟨hc, ?_⟩))
      refine decide_eq_true (List.mem_filter.2 ⟨heq ▸ hp, ?_⟩)
      simp [heq, hnr]
    · refine List.mem_append.2 (Or.inr (List.mem_flatMap.2 ⟨c, hc, ?_⟩))
      exact List.mem_map.2
        ⟨p, List.mem_filter.2 ⟨List.mem_filter.2 ⟨hp, hr⟩, hm⟩, rfl⟩

/-- C10: when `conversations_list` fails with a transport error, the
error is swallowed: the channel list resolves to `[]`, pattern
resolution yields no ids, a load call given only patterns returns the
empty document list instead of raising, and a load call given both
explicit ids and patterns proceeds with the explicit ids alone (their
set, one document each). -/
theorem c10_list_channels_error_swallowed
    (msg : String) (isR : String → Bool) (rM : String → String → Bool)
    (ct : String → Bool → String) (p i : String) (ps is : List String)
    (rc : Bool) :
    list_channels ⟨Except.error msg, isR, rM, ct⟩ = [] ∧
    get_channel_ids ⟨Except.error msg, isR, rM, ct⟩ (p :: ps) = [] ∧
    load_data ⟨Except.error msg, isR, rM, ct⟩ [] (p :: ps) rc =
      Except.ok [] ∧
    load_data ⟨Except.error msg, isR, rM, ct⟩ (i :: is) (p :: ps) rc =
      Except.ok (((i :: is).dedup).map
        (fun cid => { id_ := cid, text := ct cid rc, channel := cid })) := by
  refine ⟨rfl, rfl, ?_, ?_⟩
  · simp [load_data, get_channel_ids, filter_channels, list_channels]
  · simp [load_data, get_channel_ids, filter_channels, list_channels]

/-- C2: in both loops, a rate-limited response produces the request
event followed by a sleep of exactly the signalled `retry-after`
duration, and the rest of the run is identical to the loop restarted
on the remaining trace with the cursor and the accumulator unchanged;
moreover any loop run on a nonempty trace first issues the request for
the current cursor, so the request after a rate-limited attempt carries
the same cursor as the failed one. -/
theorem c2_rate_limit_retry
    (ch ts : String) (th : String → String) (e : Option Int) (l : Int)
    (cur : Option String) (acc : List String) (d : Nat) (tr : List ApiResp) :
    (readMessageLoop ch ts e l cur acc (ApiResp.ratelimited d :: tr) =
      (Event.request (mkReplyKwargs ch ts e l cur) :: Event.sleep d ::
        (readMessageLoop ch ts e l cur acc tr).1,
       (readMessageLoop ch ts e l cur acc tr).2)) ∧
    (∀ (r : ApiResp) (tr2 : List ApiResp),
      (readMessageLoop ch ts e l cur acc (r :: tr2)).1.head? =
        some (Event.request (mkReplyKwargs ch ts e l cur))) ∧
    (readChannelLoop ch th e l cur acc (ApiResp.ratelimited d :: tr) =
      (Event.request (mkHistKwargs ch e l cur) :: Event.sleep d ::
        (readChannelLoop ch th e l cur acc tr).1,
       (readChannelLoop ch th e l cur acc tr).2)) ∧
    (∀ (r : ApiResp) (tr2 : List ApiResp),
      (readChannelLoop ch th e l cur acc (r :: tr2)).1.head? =
        some (Event.request (mkHistKwargs ch e l cur))) := by
  refine ⟨by simp [readMessageLoop], ?_, by simp [readChannelLoop], ?_⟩
  · intro r tr2
    cases r with
    | ok msgs hasMore nextCursor =>
        by_cases h : hasMore = true <;> simp [readMessageLoop, h]
    | ratelimited d2 => simp [readMessageLoop]
    | apiError m2 => simp [readMessageLoop]
  · intro r tr2
    cases r with
    | ok msgs hasMore nextCursor =>
        by_cases h : hasMore = true <;> simp [readChannelLoop, h]
    | ratelimited d2 => simp [readChannelLoop]
    | apiError m2 => simp [readChannelLoop]
